import Mathlib

/-!
Shallow embedding of the dataset normalization pipeline of the-derple-dex
(`scripts/prepare-data-v3.py`): the per-category normalizers
(`prepare_ohlcv_dataset`, `prepare_fred_dataset`, `prepare_rss_dataset`,
`prepare_fed_stress_dataset`) and the orchestrator loop of `main`.

Modelling conventions used throughout:
* A pandas `DataFrame` is modelled as the list of its column names (`cols`)
  together with a list of typed rows; `'c' in df.columns` becomes
  `"c" ∈ cols`.  Rows carry a field for every column the code reads; a field
  belonging to a column that is absent from `cols` is never inspected on the
  paths the code actually executes.
* Timestamps are abstract instants: integers counting minutes from an epoch.
  `pd.to_datetime(..., errors="coerce")` is modelled by its result, an
  `Option ℤ` (`none` = `NaT`); `.dt.date` is flooring to a day; the
  `isoformat`/`strftime` renderings are modelled by `toString`, an injective
  presentation-only map.
* Numbers are exact rationals.  Python `round(x, 4)` is round-half-to-even
  scaled by `10 ^ 4`; `Series.std()` (sample stdev, `ddof = 1`) is modelled
  with an exact integer square root of the scaled variance.
* `DataFrame.sort_values` is modelled by sorting the index-tagged row list,
  ties decided by the original position.  pandas guarantees that stability
  only for `kind='mergesort'/'stable'` and for multi-column sorts; for the
  default `kind='quicksort'` the order of equal keys is unspecified, and the
  tagged sort is used as one admissible deterministic refinement.  No
  theorem below depends on the refinement: wherever a conclusion could be
  tie-sensitive it carries a hypothesis under which every admissible order
  agrees.
* Python `dict`s built in sorted key order (`sorted(...)` loops,
  `groupby(...)` with its default `sort=True`) are association lists in that
  key order.
-/

/-- Python `round(q)`: round half to even, on exact rationals. -/
def pyRound (q : ℚ) : ℤ :=
  let f := ⌊q⌋
  let r := q - f
  if r < 1 / 2 then f
  else if 1 / 2 < r then f + 1
  else if f % 2 = 0 then f else f + 1

/-- Python `round(q, 4)`. -/
def round4 (q : ℚ) : ℚ := (pyRound (q * 10000) : ℚ) / 10000

/-- Integer square root (`⌊√n⌋` for `n < 2 ^ 128`) by binary digit descent;
written with a structural fold so that it evaluates by kernel reduction. -/
def isqrt (n : ℕ) : ℕ :=
  (List.range 64).foldl (fun acc i =>
    let c := acc + 2 ^ (63 - i)
    if c * c ≤ n then c else acc) 0

/-- `round(Real.sqrt q, 4)` for `0 ≤ q`, computed exactly:
`⌊2 · 10 ^ 4 · √q⌋ = isqrt ⌊4 · 10 ^ 8 · q⌋`, and rounding half up.
(The half-way case needs `10 ^ 4 · √q` to be exactly a half-integer and is
not hit by any rational whose root is irrational.) -/
def sqrtRound4 (q : ℚ) : ℚ :=
  (((isqrt (⌊4 * 10 ^ 8 * q⌋).toNat + 1) / 2 : ℕ) : ℚ) / 10000

/-- The order used to model `df.sort_values(key)`: rows are tagged with
their original position, and ties on the key fall back to that position.
This is pandas' behaviour for its stable sort kinds; for the default
`kind='quicksort'` the tie order is unspecified and this is only one
admissible refinement of it. -/
def keyIdxLe {α β : Type} [LinearOrder β] (key : α → β) (a b : ℕ × α) : Prop :=
  key a.2 < key b.2 ∨ (key a.2 = key b.2 ∧ a.1 ≤ b.1)

instance keyIdxLe.decRel {α β : Type} [LinearOrder β] (key : α → β) :
    DecidableRel (keyIdxLe key) := fun a b => by
  unfold keyIdxLe; infer_instance

instance keyIdxLe.isTotal {α β : Type} [LinearOrder β] (key : α → β) :
    IsTotal (ℕ × α) (keyIdxLe key) := ⟨by
  intro a b
  unfold keyIdxLe
  rcases lt_trichotomy (key a.2) (key b.2) with h | h | h
  · exact Or.inl (Or.inl h)
  · rcases Nat.le_total a.1 b.1 with hn | hn
    · exact Or.inl (Or.inr ⟨h, hn⟩)
    · exact Or.inr (Or.inr ⟨h.symm, hn⟩)
  · exact Or.inr (Or.inl h)⟩

instance keyIdxLe.isTrans {α β : Type} [LinearOrder β] (key : α → β) :
    IsTrans (ℕ × α) (keyIdxLe key) := ⟨by
  intro a b c hab hbc
  unfold keyIdxLe at *
  rcases hab with h1 | ⟨h1, h1n⟩ <;> rcases hbc with h2 | ⟨h2, h2n⟩
  · exact Or.inl (h1.trans h2)
  · exact Or.inl (lt_of_lt_of_eq h1 h2)
  · exact Or.inl (lt_of_eq_of_lt h1 h2)
  · exact Or.inr ⟨h1.trans h2, h1n.trans h2n⟩⟩

/-- `df.sort_values` on a key (deterministic refinement: ties kept in
original order). -/
def stableSortKey {α β : Type} [LinearOrder β] (key : α → β) (l : List α) : List α :=
  ((l.enum).insertionSort (keyIdxLe key)).map Prod.snd

/-- Python `sorted` on strings. -/
def sortStrings (l : List String) : List String := l.insertionSort (· ≤ ·)

/-- Python `sorted` on integers. -/
def sortInts (l : List ℤ) : List ℤ := l.insertionSort (· ≤ ·)

/-- `c.startswith('_')`: the column name begins with an underscore. -/
def startsWithUnderscore (c : String) : Bool :=
  match c.data with
  | [] => false
  | ch :: _ => ch == '_'

/-- `df[[c for c in df.columns if not c.startswith('_')]]`: dropping the
cdata-internal columns only affects the recorded column list here, since the
rows are typed. -/
def stripInternal (cols : List String) : List String :=
  cols.filter (fun c => ! startsWithUnderscore c)

/-- Abstract `Timestamp.isoformat()`. -/
def fmtIso (t : ℤ) : String := toString t

/-- Abstract `strftime('%Y-%m-%d')`. -/
def fmtDay (t : ℤ) : String := toString t

/-- Abstract `strftime('%Y-%m-%d %H:%M')`. -/
def fmtMinute (t : ℤ) : String := toString t

/-- `.dt.date` on minute-granular instants: the calendar day. -/
def dayOf (p : ℤ) : ℤ := p.fdiv 1440

/-- `timedelta.days` between two minute-granular instants. -/
def daysBetween (lo hi : ℤ) : ℤ := (hi - lo).fdiv 1440

/-- The slice of the per-dataset configuration the normalizers read:
`config.get("description", "")` and `config.get("primary_keys", [])`. -/
structure Config where
  description : String
  primary_keys : List String
deriving DecidableEq, Repr

/-- `stats.date_range` (`min`/`max` rendered, `days` whole days). -/
structure DateRange where
  min : Option String
  max : Option String
  days : ℤ
deriving DecidableEq, Repr

/-! ### Price-series (OHLCV) normalizer -/

/-- A row of an OHLCV table.  `opn` models the `open` column (`open` is a
Lean keyword). -/
structure OhlcvRow where
  date : ℤ
  symbol : String
  opn : ℚ
  high : ℚ
  low : ℚ
  close : ℚ
  volume : ℤ
deriving DecidableEq, Repr, Inhabited

structure OhlcvTable where
  cols : List String
  rows : List OhlcvRow
deriving DecidableEq, Repr

/-- One entry of `stats.by_symbol`. -/
structure SymbolStat where
  count : ℕ
  date_min : String
  date_max : String
  close_mean : ℚ
  close_min : ℚ
  close_max : ℚ
  close_std : ℚ
  volume_total : ℤ
deriving DecidableEq, Repr

structure OhlcvMeta where
  name : String
  source_id : String
  location : String
  format : String
  record_count : ℕ
  columns : List String
  primary_keys : List String
  fetched_at : String
  description : String
  symbols : List String
deriving DecidableEq, Repr

structure OhlcvStats where
  date_range : DateRange
  by_symbol : List (String × SymbolStat)
deriving DecidableEq, Repr

/-- A row of the emitted `data` (date display-formatted). -/
structure OhlcvDataRow where
  symbol : String
  date : String
  opn : ℚ
  high : ℚ
  low : ℚ
  close : ℚ
  volume : ℤ
deriving DecidableEq, Repr

structure OhlcvDoc where
  name : String
  type : String
  description : String
  meta : OhlcvMeta
  stats : OhlcvStats
  data : List OhlcvDataRow
deriving DecidableEq, Repr

/-- The per-symbol statistics block of `prepare_ohlcv_dataset`. -/
def symbolStatOf (rows : List OhlcvRow) (s : String) : SymbolStat :=
  let sdf := rows.filter (fun r => r.symbol = s)
  let closes := sdf.map (fun r => r.close)
  let n := sdf.length
  let m := closes.sum / (n : ℚ)
  { count := n
    date_min := fmtIso (((sdf.map (fun r => r.date)).min?).getD 0)
    date_max := fmtIso (((sdf.map (fun r => r.date)).max?).getD 0)
    close_mean := round4 m
    close_min := round4 ((closes.min?).getD 0)
    close_max := round4 ((closes.max?).getD 0)
    close_std :=
      if 1 < n then
        sqrtRound4 ((closes.map (fun x => (x - m) ^ 2)).sum / ((n : ℚ) - 1))
      else 0
    volume_total := (sdf.map (fun r => r.volume)).sum }

/-- `prepare_ohlcv_dataset(name, df, config)`; `now` models
`datetime.utcnow().isoformat()`. -/
def prepare_ohlcv_dataset (name : String) (t : OhlcvTable) (config : Config)
    (now : String) : OhlcvDoc :=
  let cols := stripInternal t.cols
  if t.rows.length = 0 ∨ "date" ∉ cols ∨ "symbol" ∉ cols then
    { name := name
      type := "ohlcv"
      description := config.description
      meta :=
        { name := name, source_id := name, location := "bridge"
          format := "dataframe", record_count := 0
          columns := if 0 < cols.length then cols else []
          primary_keys := config.primary_keys, fetched_at := now
          description := config.description, symbols := [] }
      stats :=
        { date_range := { min := none, max := none, days := 0 }
          by_symbol := [] }
      data := [] }
  else
    let symbols := sortStrings ((t.rows.map (fun r => r.symbol)).dedup)
    let symbol_stats := symbols.map (fun s => (s, symbolStatOf t.rows s))
    let date_min := ((t.rows.map (fun r => r.date)).min?).getD 0
    let date_max := ((t.rows.map (fun r => r.date)).max?).getD 0
    let sample := stableSortKey (fun r => toLex (r.symbol, r.date)) t.rows
    { name := name
      type := "ohlcv"
      description := config.description
      meta :=
        { name := name, source_id := name, location := "bridge"
          format := "dataframe", record_count := t.rows.length
          columns := cols
          primary_keys := config.primary_keys, fetched_at := now
          description := config.description, symbols := symbols }
      stats :=
        { date_range :=
            { min := some (fmtIso date_min), max := some (fmtIso date_max)
              days := daysBetween date_min date_max }
          by_symbol := symbol_stats }
      data := sample.map (fun r =>
        { symbol := r.symbol, date := fmtDay r.date, opn := r.opn
          high := r.high, low := r.low, close := r.close, volume := r.volume }) }

/-! ### Macro-series (FRED/BLS) normalizer -/

structure FredRow where
  date : ℤ
  series_id : String
  value : ℚ
  title : String
  units : String
  frequency : String
deriving DecidableEq, Repr, Inhabited

structure FredTable where
  cols : List String
  rows : List FredRow
deriving DecidableEq, Repr

/-- One entry of `stats.by_series`. -/
structure SeriesStat where
  title : String
  units : String
  frequency : String
  count : ℕ
  date_min : String
  date_max : String
  value_mean : ℚ
  value_min : ℚ
  value_max : ℚ
  value_latest : ℚ
deriving DecidableEq, Repr

structure FredMeta where
  name : String
  source_id : String
  location : String
  format : String
  record_count : ℕ
  columns : List String
  primary_keys : List String
  fetched_at : String
  description : String
  series : List String
deriving DecidableEq, Repr

structure FredStats where
  date_range : DateRange
  by_series : List (String × SeriesStat)
deriving DecidableEq, Repr

structure FredDataRow where
  series_id : String
  date : String
  value : ℚ
  title : String
  units : String
deriving DecidableEq, Repr

structure FredDoc where
  name : String
  type : String
  description : String
  meta : FredMeta
  stats : FredStats
  data : List FredDataRow
deriving DecidableEq, Repr

/-- The per-series statistics block of `prepare_fred_dataset`;
`value_latest` is the `value` of `sdf.sort_values('date').iloc[-1]`. -/
def seriesStatOf (cols : List String) (rows : List FredRow) (sid : String) :
    SeriesStat :=
  let sdf := rows.filter (fun r => r.series_id = sid)
  let values := sdf.map (fun r => r.value)
  { title := if "title" ∈ cols ∧ 0 < sdf.length then (sdf.headD default).title else sid
    units := if "units" ∈ cols ∧ 0 < sdf.length then (sdf.headD default).units else ""
    frequency :=
      if "frequency" ∈ cols ∧ 0 < sdf.length then (sdf.headD default).frequency else ""
    count := sdf.length
    date_min := fmtIso (((sdf.map (fun r => r.date)).min?).getD 0)
    date_max := fmtIso (((sdf.map (fun r => r.date)).max?).getD 0)
    value_mean := round4 (values.sum / (sdf.length : ℚ))
    value_min := round4 ((values.min?).getD 0)
    value_max := round4 ((values.max?).getD 0)
    value_latest :=
      round4 (((stableSortKey (fun r => r.date) sdf).getLastD default).value) }

/-- `prepare_fred_dataset(name, df, config, data_type)`. -/
def prepare_fred_dataset (name : String) (t : FredTable) (config : Config)
    (data_type : String) (now : String) : FredDoc :=
  let cols := stripInternal t.cols
  if t.rows.length = 0 ∨ "date" ∉ cols ∨ "series_id" ∉ cols then
    { name := name
      type := data_type
      description := config.description
      meta :=
        { name := name, source_id := name, location := "bridge"
          format := "dataframe", record_count := 0
          columns := if 0 < cols.length then cols else []
          primary_keys := config.primary_keys, fetched_at := now
          description := config.description, series := [] }
      stats :=
        { date_range := { min := none, max := none, days := 0 }
          by_series := [] }
      data := [] }
  else
    let series_ids := sortStrings ((t.rows.map (fun r => r.series_id)).dedup)
    let series_stats := series_ids.map (fun sid => (sid, seriesStatOf cols t.rows sid))
    let date_min := ((t.rows.map (fun r => r.date)).min?).getD 0
    let date_max := ((t.rows.map (fun r => r.date)).max?).getD 0
    let sample := stableSortKey (fun r => toLex (r.series_id, r.date)) t.rows
    { name := name
      type := data_type
      description := config.description
      meta :=
        { name := name, source_id := name, location := "bridge"
          format := "dataframe", record_count := t.rows.length
          columns := cols
          primary_keys := config.primary_keys, fetched_at := now
          description := config.description, series := series_ids }
      stats :=
        { date_range :=
            { min := some (fmtIso date_min), max := some (fmtIso date_max)
              days := daysBetween date_min date_max }
          by_series := series_stats }
      data := sample.map (fun r =>
        { series_id := r.series_id, date := fmtDay r.date, value := r.value
          title := r.title, units := r.units }) }

/-! ### News-feed (RSS) normalizer -/

/-- A raw RSS row.  `published` is the result of
`pd.to_datetime(..., utc=True, errors='coerce')` on the raw value:
`none` models an unparseable value (`NaT`). -/
structure RssRow where
  published : Option ℤ
  title : String
  link : String
  feed_name : String
  author : String
deriving DecidableEq, Repr, Inhabited

structure RssTable where
  cols : List String
  rows : List RssRow
deriving DecidableEq, Repr

/-- An RSS row that survived date coercion. -/
structure RssCRow where
  pub : ℤ
  title : String
  link : String
  feed_name : String
  author : String
deriving DecidableEq, Repr, Inhabited

/-- `df['published'] = pd.to_datetime(...); df = df.dropna(subset=['published'])`:
keep the rows whose coercion succeeded, in order. -/
def coerceRows (rows : List RssRow) : List RssCRow :=
  rows.filterMap (fun r =>
    r.published.map (fun p => ⟨p, r.title, r.link, r.feed_name, r.author⟩))

structure RssMeta where
  name : String
  source_id : String
  location : String
  format : String
  record_count : ℕ
  columns : List String
  primary_keys : List String
  fetched_at : String
  description : String
  feeds : List String
deriving DecidableEq, Repr

structure RssStats where
  date_range : DateRange
  articles_by_feed : List (String × ℕ)
  articles_by_day : List (String × ℕ)
deriving DecidableEq, Repr

/-- `recent_df[available_cols].to_dict(orient='records')`: each emitted row is
the projection of a surviving row onto the columns, in the fixed order
`title, link, published, feed_name, author`, that the table actually has. -/
def projectRssRow (cols : List String) (r : RssCRow) : List (String × String) :=
  (if "title" ∈ cols then [("title", r.title)] else []) ++
  (if "link" ∈ cols then [("link", r.link)] else []) ++
  (if "published" ∈ cols then [("published", fmtMinute r.pub)] else []) ++
  (if "feed_name" ∈ cols then [("feed_name", r.feed_name)] else []) ++
  (if "author" ∈ cols then [("author", r.author)] else [])

structure RssDoc where
  name : String
  type : String
  description : String
  meta : RssMeta
  stats : RssStats
  data : List (List (String × String))
deriving DecidableEq, Repr

/-- The zero-row document of `prepare_rss_dataset` (lines guarded by
`len(df) == 0`). -/
def rssEmptyDoc (name : String) (cols : List String) (config : Config)
    (now : String) : RssDoc :=
  { name := name
    type := "rss"
    description := config.description
    meta :=
      { name := name, source_id := name, location := "bridge"
        format := "dataframe", record_count := 0
        columns := if 0 < cols.length then cols else []
        primary_keys := config.primary_keys, fetched_at := now
        description := config.description, feeds := [] }
    stats :=
      { date_range := { min := none, max := none, days := 0 }
        articles_by_feed := [], articles_by_day := [] }
    data := [] }

/-- The main path of `prepare_rss_dataset`, applied to the rows that
survived date coercion.  The `recent` slice is
`df.sort_values('published', ascending=False).head(30)` with pandas'
default `kind='quicksort'`: the program leaves the relative order of rows
with equal `published` values — and, at the rank-30 boundary, even which of
the tied rows are kept — unspecified.  The tagged sort below fixes ties by
original position purely so the embedding stays a function; it is one
admissible refinement of that unspecified behaviour, and no theorem in this
file relies on the choice. -/
def rssMainDoc (name : String) (cols : List String) (df : List RssCRow)
    (config : Config) (now : String) : RssDoc :=
  let feeds :=
    if "feed_name" ∈ cols then sortStrings ((df.map (fun r => r.feed_name)).dedup)
    else []
  let articles_by_feed :=
    if "feed_name" ∈ cols then
      (sortStrings ((df.map (fun r => r.feed_name)).dedup)).map
        (fun f => (f, (df.filter (fun r => r.feed_name = f)).length))
    else []
  -- `df['published'].min() if len(df) > 0 else None`: `min?` is `none`
  -- exactly on the empty list.
  let date_min := (df.map (fun r => r.pub)).min?
  let date_max := (df.map (fun r => r.pub)).max?
  let articles_by_day :=
    if 0 < df.length then
      (sortInts ((df.map (fun r => dayOf r.pub)).dedup)).map
        (fun d => (toString d, (df.filter (fun r => dayOf r.pub = d)).length))
    else []
  let recent :=
    (((df.enum).insertionSort
        (keyIdxLe (fun r => OrderDual.toDual r.pub))).take 30).map
      (fun p => projectRssRow cols p.2)
  { name := name
    type := "rss"
    description := config.description
    meta :=
      { name := name, source_id := name, location := "bridge"
        format := "dataframe", record_count := df.length
        columns := cols
        primary_keys := config.primary_keys, fetched_at := now
        description := config.description, feeds := feeds }
    stats :=
      { date_range :=
          { min := date_min.map fmtIso, max := date_max.map fmtIso
            days := match date_min, date_max with
              | some lo, some hi => daysBetween lo hi
              | _, _ => 0 }
        articles_by_feed := articles_by_feed
        articles_by_day := articles_by_day }
    data := recent }

/-- `prepare_rss_dataset(name, df, config)`.  The one genuine raise point is
`df['published']` (computing the date range / histogram / recent slice) on a
non-empty table with no `published` column: a `KeyError`, returned as
`.error`.  Everything after the `dropna` only sees the surviving rows. -/
def prepare_rss_dataset (name : String) (t : RssTable) (config : Config)
    (now : String) : Except String RssDoc :=
  let cols := stripInternal t.cols
  if t.rows.length = 0 then
    .ok (rssEmptyDoc name cols config now)
  else if "published" ∈ cols then
    .ok (rssMainDoc name cols (coerceRows t.rows) config now)
  else
    .error "KeyError: published"

/-! ### Stress-scenario (Fed stress test) normalizer -/

/-- A stress-test row: the columns the normalizer inspects (`year`, `table`,
the quarter-label `date` kept as a string); the remaining payload columns are
carried through to `data` untouched and are not modelled. -/
structure StressRow where
  year : ℤ
  table : String
  date : String
deriving DecidableEq, Repr, Inhabited

structure StressTable where
  cols : List String
  rows : List StressRow
deriving DecidableEq, Repr

structure StressMeta where
  name : String
  source_id : String
  location : String
  format : String
  record_count : ℕ
  columns : List String
  primary_keys : List String
  fetched_at : String
  description : String
  years : List ℤ
  scenarios : List String
deriving DecidableEq, Repr

structure StressStats where
  date_range : DateRange
  years : List ℤ
  scenarios : List String
  record_count : ℕ
deriving DecidableEq, Repr

structure StressDoc where
  name : String
  type : String
  description : String
  meta : StressMeta
  stats : StressStats
  data : List StressRow
deriving DecidableEq, Repr

/-- Python truthiness of `period_min`/`period_max` in
`str(period_min) if period_min else None`: both `None` and the empty string
are falsy (`str` is the identity on strings). -/
def truthyStr (s : Option String) : Option String :=
  match s with
  | some v => if v = "" then none else some v
  | none => none

/-- `prepare_fed_stress_dataset(name, df, config)`.  The dynamic sort key is
modelled by neutral components for absent columns: with a stable sort this
coincides with sorting by the present columns only (and with leaving `df`
unsorted when none are present). -/
def prepare_fed_stress_dataset (name : String) (t : StressTable) (config : Config)
    (now : String) : StressDoc :=
  let cols := stripInternal t.cols
  let years := if "year" ∈ cols then sortInts ((t.rows.map (fun r => r.year)).dedup) else []
  let scenarios :=
    if "table" ∈ cols then sortStrings ((t.rows.map (fun r => r.table)).dedup) else []
  let periods := sortStrings ((t.rows.map (fun r => r.date)).dedup)
  let period_min := if "date" ∈ cols then periods.head? else none
  let period_max := if "date" ∈ cols then periods.getLast? else none
  let sample := stableSortKey (fun r =>
    toLex ((if "year" ∈ cols then r.year else 0),
      toLex ((if "table" ∈ cols then r.table else ""),
        (if "date" ∈ cols then r.date else "")))) t.rows
  { name := name
    type := "fed_stress"
    description := config.description
    meta :=
      { name := name, source_id := name, location := "bridge"
        format := "dataframe", record_count := t.rows.length
        columns := cols
        primary_keys := config.primary_keys, fetched_at := now
        description := config.description, years := years, scenarios := scenarios }
    stats :=
      { date_range :=
          { min := truthyStr period_min, max := truthyStr period_max
            days := 0 }  -- hard-coded: not applicable for quarterly data
        years := years, scenarios := scenarios, record_count := t.rows.length }
    data := sample }

/-! ### Orchestrator (`main`) -/

/-- A canonical document as the orchestrator sees it: six fields, the
payloads opaque (the loop never inspects `meta`/`stats`/`data`). -/
structure GDoc (M S D : Type) where
  name : String
  type : String
  description : String
  meta : M
  stats : S
  data : D
deriving DecidableEq, Repr

/-- A summary entry: the document without its `data` field. -/
structure GSummary (M S : Type) where
  name : String
  type : String
  description : String
  meta : M
  stats : S
deriving DecidableEq, Repr

/-- Lines 505-511 of `main`: the summary dict built from the dataset dict. -/
def stripData {M S D : Type} (d : GDoc M S D) : GSummary M S :=
  { name := d.name, type := d.type, description := d.description
    meta := d.meta, stats := d.stats }

/-- What one iteration of the `main` loop amounts to for a declared dataset:
it is skipped (restricted dataset, unknown source type, unknown category),
its fetch or normalization raises (`except` branch), or it yields a
document. -/
inductive Outcome (M S D : Type) where
  | skipped : Outcome M S D
  | failed : String → Outcome M S D
  | prepared : GDoc M S D → Outcome M S D
deriving DecidableEq, Repr

/-- The `main` loop over the declared datasets: returns the per-dataset
artifacts written, the accumulated `all_datasets` summary collection, and the
accumulated `errors` (each recorded as `f"{name}: {e}"`). -/
def mainLoop {M S D : Type} :
    List (String × Outcome M S D) →
      List (String × GDoc M S D) × List (GSummary M S) × List String
  | [] => ([], [], [])
  | (n, o) :: rest =>
    let acc := mainLoop rest
    match o with
    | .skipped => acc
    | .failed msg => (acc.1, acc.2.1, (n ++ ": " ++ msg) :: acc.2.2)
    | .prepared doc => ((n, doc) :: acc.1, stripData doc :: acc.2.1, acc.2.2)

/-- The observable result of one run of `main`: the artifacts written, the
summary collection written to `datasets.json` after the loop, and whether the
run ends in `sys.exit(1)`. -/
structure RunResult (M S D : Type) where
  written : List (String × GDoc M S D)
  all_datasets : List (GSummary M S)
  errors : List String
  exitFailure : Bool
deriving DecidableEq, Repr

/-- `main`: run the loop over every declared dataset, write `datasets.json`
from whatever succeeded, and exit with failure status iff any per-dataset
error was recorded. -/
def main_run {M S D : Type} (items : List (String × Outcome M S D)) :
    RunResult M S D :=
  let r := mainLoop items
  { written := r.1, all_datasets := r.2.1, errors := r.2.2
    exitFailure := ! r.2.2.isEmpty }

/-! ### Helper lemmas -/

/-- Dropping internal columns does not drop an ordinary column name. -/
theorem mem_stripInternal_of_mem {c : String} {cols : List String}
    (hpre : startsWithUnderscore c = false) (h : c ∈ cols) : c ∈ stripInternal cols :=
  List.mem_filter.mpr ⟨h, by simp [hpre]⟩

/-- Conversely, `stripInternal` only keeps existing columns. -/
theorem mem_of_mem_stripInternal {c : String} {cols : List String}
    (h : c ∈ stripInternal cols) : c ∈ cols :=
  (List.mem_filter.mp h).1

/-- In a `Pairwise` list, every member is the last element or relates to it. -/
theorem pairwise_rel_getLast? {α : Type} {R : α → α → Prop} :
    ∀ {l : List α} {x y : α}, l.Pairwise R → x ∈ l → l.getLast? = some y →
      x = y ∨ R x y := by
  intro l
  induction l with
  | nil => intro x y _ hx; cases hx
  | cons a tl ih =>
    intro x y hp hx hl
    cases tl with
    | nil =>
      simp only [List.getLast?_singleton, Option.some.injEq] at hl
      simp only [List.mem_singleton] at hx
      subst hl; subst hx; exact Or.inl rfl
    | cons b tl2 =>
      rw [List.getLast?_cons_cons] at hl
      rcases List.mem_cons.mp hx with rfl | hx2
      · exact Or.inr ((List.pairwise_cons.mp hp).1 y (List.mem_of_mem_getLast? hl))
      · exact ih (List.pairwise_cons.mp hp).2 hx2 hl

/-- The stable sort permutes the input list. -/
theorem stableSortKey_perm {α β : Type} [LinearOrder β] (key : α → β) (l : List α) :
    List.Perm (stableSortKey key l) l := by
  unfold stableSortKey
  have h1 : List.Perm (((l.enum).insertionSort (keyIdxLe key)).map Prod.snd)
      ((l.enum).map Prod.snd) := (List.perm_insertionSort _ _).map _
  rw [List.enum_map_snd] at h1
  exact h1

/-! ### Claim theorems -/

/-- C1: for every run of the orchestrator, a per-dataset exception is caught
and recorded as its `name: message` string while the loop continues: the
summary collection written at the end consists of exactly the stripped
documents of the successfully prepared datasets (independent of any
failures before or after them), the recorded errors are exactly the failed
datasets' entries, and the run exits with failure status iff at least one
error was recorded (fail-at-end, never aborting the batch early). -/
theorem orchestrator_fail_at_end {M S D : Type}
    (items : List (String × Outcome M S D)) :
    (main_run items).all_datasets
        = items.filterMap (fun it =>
            match it.2 with
            | Outcome.prepared doc => some (stripData doc)
            | _ => none)
      ∧ (main_run items).errors
        = items.filterMap (fun it =>
            match it.2 with
            | Outcome.failed msg => some (it.1 ++ ": " ++ msg)
            | _ => none)
      ∧ ((main_run items).exitFailure = true ↔ (main_run items).errors ≠ []) := by
  refine ⟨?_, ?_, ?_⟩
  · show (mainLoop items).2.1 = _
    induction items with
    | nil => rfl
    | cons it rest ih =>
      obtain ⟨n, o⟩ := it
      cases o <;> simp [mainLoop, ih]
  · show (mainLoop items).2.2 = _
    induction items with
    | nil => rfl
    | cons it rest ih =>
      obtain ⟨n, o⟩ := it
      cases o <;> simp [mainLoop, ih]
  · show (!(mainLoop items).2.2.isEmpty) = true ↔ _
    simp [main_run, List.isEmpty_iff]

/-- C9: every per-dataset artifact written by the orchestrator reappears in
the summary collection with exactly the `data` field removed: `name`,
`type`, `description`, `meta` and `stats` agree between the full document
and its summary entry. -/
theorem summary_is_doc_without_data {M S D : Type}
    (items : List (String × Outcome M S D)) (n : String) (doc : GDoc M S D)
    (h : (n, doc) ∈ (main_run items).written) :
    stripData doc ∈ (main_run items).all_datasets
      ∧ (stripData doc).name = doc.name
      ∧ (stripData doc).type = doc.type
      ∧ (stripData doc).description = doc.description
      ∧ (stripData doc).meta = doc.meta
      ∧ (stripData doc).stats = doc.stats := by
  refine ⟨?_, rfl, rfl, rfl, rfl, rfl⟩
  show stripData doc ∈ (mainLoop items).2.1
  have h0 : (n, doc) ∈ (mainLoop items).1 := h
  clear h
  induction items with
  | nil => cases h0
  | cons it rest ih =>
    obtain ⟨m, o⟩ := it
    cases o with
    | skipped => exact ih h0
    | failed msg => exact ih h0
    | prepared d =>
      rcases List.mem_cons.mp h0 with heq | hmem
      · cases heq
        exact List.mem_cons_self _ _
      · exact List.mem_cons_of_mem _ (ih hmem)

/-- Witness for C9 at a concrete one-dataset run. -/
theorem summary_is_doc_without_data_witness :
    (("px", (⟨"px", "ohlcv", "d", 0, 1, 2⟩ : GDoc ℕ ℕ ℕ))
        ∈ (main_run [("px", Outcome.prepared (⟨"px", "ohlcv", "d", 0, 1, 2⟩ : GDoc ℕ ℕ ℕ))]).written)
      ∧ (stripData (⟨"px", "ohlcv", "d", 0, 1, 2⟩ : GDoc ℕ ℕ ℕ)
          ∈ (main_run [("px", Outcome.prepared (⟨"px", "ohlcv", "d", 0, 1, 2⟩ : GDoc ℕ ℕ ℕ))]).all_datasets) :=
  ⟨by simp [main_run, mainLoop], (summary_is_doc_without_data _ "px" _
    (by simp [main_run, mainLoop])).1⟩

/-- C2: a price-series table that is empty or lacks `date`/`symbol`, and a
macro-series table that is empty or lacks `date`/`series_id`, normalize to
the zero-record document: `data = []`, no keys, empty per-key statistics and
a null date range, with no exception (the functions are total). -/
theorem empty_table_zero_document (n1 n2 : String) (t : OhlcvTable) (tf : FredTable)
    (c1 c2 : Config) (dt now1 now2 : String)
    (h1 : t.rows = [] ∨ "date" ∉ t.cols ∨ "symbol" ∉ t.cols)
    (h2 : tf.rows = [] ∨ "date" ∉ tf.cols ∨ "series_id" ∉ tf.cols) :
    prepare_ohlcv_dataset n1 t c1 now1 =
      { name := n1
        type := "ohlcv"
        description := c1.description
        meta :=
          { name := n1, source_id := n1, location := "bridge"
            format := "dataframe", record_count := 0
            columns :=
              if 0 < (stripInternal t.cols).length then stripInternal t.cols else []
            primary_keys := c1.primary_keys, fetched_at := now1
            description := c1.description, symbols := [] }
        stats :=
          { date_range := { min := none, max := none, days := 0 }
            by_symbol := [] }
        data := [] }
    ∧ prepare_fred_dataset n2 tf c2 dt now2 =
      { name := n2
        type := dt
        description := c2.description
        meta :=
          { name := n2, source_id := n2, location := "bridge"
            format := "dataframe", record_count := 0
            columns :=
              if 0 < (stripInternal tf.cols).length then stripInternal tf.cols else []
            primary_keys := c2.primary_keys, fetched_at := now2
            description := c2.description, series := [] }
        stats :=
          { date_range := { min := none, max := none, days := 0 }
            by_series := [] }
        data := [] } := by
  constructor
  · have hc : t.rows.length = 0 ∨ "date" ∉ stripInternal t.cols
        ∨ "symbol" ∉ stripInternal t.cols := by
      rcases h1 with h | h | h
      · exact Or.inl (by simp [h])
      · exact Or.inr (Or.inl (fun hm => h (mem_of_mem_stripInternal hm)))
      · exact Or.inr (Or.inr (fun hm => h (mem_of_mem_stripInternal hm)))
    simp only [prepare_ohlcv_dataset, if_pos hc]
  · have hc : tf.rows.length = 0 ∨ "date" ∉ stripInternal tf.cols
        ∨ "series_id" ∉ stripInternal tf.cols := by
      rcases h2 with h | h | h
      · exact Or.inl (by simp [h])
      · exact Or.inr (Or.inl (fun hm => h (mem_of_mem_stripInternal hm)))
      · exact Or.inr (Or.inr (fun hm => h (mem_of_mem_stripInternal hm)))
    simp only [prepare_fred_dataset, if_pos hc]

/-- Witness for C2 at concrete empty tables. -/
theorem empty_table_zero_document_witness :
    ((⟨["close"], []⟩ : OhlcvTable).rows = [] ∨ "date" ∉ (⟨["close"], []⟩ : OhlcvTable).cols
        ∨ "symbol" ∉ (⟨["close"], []⟩ : OhlcvTable).cols)
      ∧ (prepare_ohlcv_dataset "px" ⟨["close"], []⟩ ⟨"d", []⟩ "t1").data = []
      ∧ (prepare_fred_dataset "mx" ⟨["value"], []⟩ ⟨"d", []⟩ "fred" "t2").stats.by_series = [] := by
  refine ⟨Or.inl rfl, ?_, ?_⟩
  · rw [(empty_table_zero_document "px" "mx" ⟨["close"], []⟩ ⟨["value"], []⟩
      ⟨"d", []⟩ ⟨"d", []⟩ "fred" "t1" "t2" (Or.inl rfl) (Or.inl rfl)).1]
  · rw [(empty_table_zero_document "px" "mx" ⟨["close"], []⟩ ⟨["value"], []⟩
      ⟨"d", []⟩ ⟨"d", []⟩ "fred" "t1" "t2" (Or.inl rfl) (Or.inl rfl)).2]

/-- C7: the stress-scenario normalizer always reports
`stats.date_range.days = 0`, and when the table lacks a `date` column the
`min`/`max` bounds are `null`, with no exception (the function is total). -/
theorem stress_days_always_zero (name : String) (t : StressTable) (config : Config)
    (now : String) :
    (prepare_fed_stress_dataset name t config now).stats.date_range.days = 0
      ∧ ("date" ∉ t.cols →
          (prepare_fed_stress_dataset name t config now).stats.date_range.min = none
            ∧ (prepare_fed_stress_dataset name t config now).stats.date_range.max = none) := by
  constructor
  · simp [prepare_fed_stress_dataset]
  · intro h
    have h2 : "date" ∉ stripInternal t.cols := fun hm => h (mem_of_mem_stripInternal hm)
    constructor <;> simp [prepare_fed_stress_dataset, h2, truthyStr]

/-- Witness for C7 at a concrete table lacking `date`. -/
theorem stress_days_always_zero_witness :
    ("date" ∉ (⟨["year", "table"], [⟨2024, "severely_adverse", "2024 Q1"⟩]⟩ : StressTable).cols)
      ∧ (prepare_fed_stress_dataset "fs"
          ⟨["year", "table"], [⟨2024, "severely_adverse", "2024 Q1"⟩]⟩ ⟨"d", []⟩ "t").stats.date_range.min
          = none := by
  have hm : "date" ∉ (⟨["year", "table"], [⟨2024, "severely_adverse", "2024 Q1"⟩]⟩ : StressTable).cols := by
    simp
  exact ⟨hm, ((stress_days_always_zero "fs" _ ⟨"d", []⟩ "t").2 hm).1⟩

/-- C10: a non-empty news-feed table without a `published` column makes the
normalizer raise (the date-range computation reads the absent column); the
empty-document path is only taken for tables with zero rows. -/
theorem rss_missing_published_raises (name : String) (t : RssTable) (config : Config)
    (now : String) (hne : t.rows ≠ []) (hp : "published" ∉ t.cols) :
    prepare_rss_dataset name t config now = .error "KeyError: published" := by
  have hp2 : "published" ∉ stripInternal t.cols := fun hm => hp (mem_of_mem_stripInternal hm)
  have hlen : ¬ t.rows.length = 0 := by simpa [List.length_eq_zero] using hne
  simp [prepare_rss_dataset, hlen, hp2]

/-- Witness for C10 at a concrete one-row table without `published`. -/
theorem rss_missing_published_raises_witness :
    ((⟨["title"], [⟨none, "t", "l", "f", "a"⟩]⟩ : RssTable).rows ≠ []
        ∧ "published" ∉ (⟨["title"], [⟨none, "t", "l", "f", "a"⟩]⟩ : RssTable).cols)
      ∧ prepare_rss_dataset "nw" ⟨["title"], [⟨none, "t", "l", "f", "a"⟩]⟩ ⟨"d", []⟩ "t"
          = .error "KeyError: published" := by
  refine ⟨⟨by simp, by simp⟩, ?_⟩
  exact rss_missing_published_raises "nw" _ ⟨"d", []⟩ "t" (by simp) (by simp)

/-- C3: for a non-empty price-series table with `date` and `symbol` columns,
the keys of `stats.by_symbol` are exactly the distinct `symbol` values of the
table, listed in sorted order (not table order), and each entry counts the
rows carrying that symbol. -/
theorem by_symbol_sorted_unique_counts (name : String) (t : OhlcvTable)
    (config : Config) (now : String) (hne : t.rows ≠ [])
    (hd : "date" ∈ t.cols) (hs : "symbol" ∈ t.cols) :
    ((prepare_ohlcv_dataset name t config now).stats.by_symbol.map Prod.fst).Sorted (· ≤ ·)
      ∧ ((prepare_ohlcv_dataset name t config now).stats.by_symbol.map Prod.fst).Nodup
      ∧ (∀ s : String,
          s ∈ (prepare_ohlcv_dataset name t config now).stats.by_symbol.map Prod.fst
            ↔ s ∈ t.rows.map (fun r => r.symbol))
      ∧ ∀ p ∈ (prepare_ohlcv_dataset name t config now).stats.by_symbol,
          p.2.count = (t.rows.filter (fun r => r.symbol = p.1)).length := by
  have hcond : ¬ (t.rows.length = 0 ∨ "date" ∉ stripInternal t.cols
      ∨ "symbol" ∉ stripInternal t.cols) := by
    push_neg
    exact ⟨by simpa [List.length_eq_zero] using hne,
      mem_stripInternal_of_mem (by decide) hd, mem_stripInternal_of_mem (by decide) hs⟩
  have hby : (prepare_ohlcv_dataset name t config now).stats.by_symbol
      = (sortStrings ((t.rows.map (fun r => r.symbol)).dedup)).map
          (fun s => (s, symbolStatOf t.rows s)) := by
    simp only [prepare_ohlcv_dataset, if_neg hcond]
  have hkeys : (prepare_ohlcv_dataset name t config now).stats.by_symbol.map Prod.fst
      = sortStrings ((t.rows.map (fun r => r.symbol)).dedup) := by
    rw [hby, List.map_map]
    simp [Function.comp_def]
  have hperm : List.Perm (sortStrings ((t.rows.map (fun r => r.symbol)).dedup))
      ((t.rows.map (fun r => r.symbol)).dedup) := List.perm_insertionSort _ _
  refine ⟨?_, ?_, ?_, ?_⟩
  · rw [hkeys]
    exact List.sorted_insertionSort _ _
  · rw [hkeys]
    exact hperm.nodup_iff.mpr (List.nodup_dedup _)
  · intro s
    rw [hkeys]
    exact hperm.mem_iff.trans (List.mem_dedup)
  · intro p hp
    rw [hby] at hp
    obtain ⟨s, _, rfl⟩ := List.mem_map.mp hp
    simp [symbolStatOf]

/-- Witness for C3 at a concrete two-row table. -/
theorem by_symbol_sorted_unique_counts_witness :
    ((⟨["date", "symbol"],
        [⟨2, "B", 1, 1, 1, 1, 5⟩, ⟨1, "A", 2, 2, 2, 2, 6⟩]⟩ : OhlcvTable).rows ≠ []
        ∧ "date" ∈ (["date", "symbol"] : List String)
        ∧ "symbol" ∈ (["date", "symbol"] : List String))
      ∧ ∀ s : String,
          s ∈ (prepare_ohlcv_dataset "px"
              ⟨["date", "symbol"], [⟨2, "B", 1, 1, 1, 1, 5⟩, ⟨1, "A", 2, 2, 2, 2, 6⟩]⟩
              ⟨"d", []⟩ "t").stats.by_symbol.map Prod.fst
            ↔ s ∈ ["B", "A"] := by
  refine ⟨⟨by simp, by simp, by simp⟩, ?_⟩
  intro s
  exact (by_symbol_sorted_unique_counts "px"
    ⟨["date", "symbol"], [⟨2, "B", 1, 1, 1, 1, 5⟩, ⟨1, "A", 2, 2, 2, 2, 6⟩]⟩
    ⟨"d", []⟩ "t" (by simp) (by simp) (by simp)).2.2.1 s

/-- The last element of a stable key-sort is the unique key-maximal element,
when there is one. -/
theorem stableSortKey_getLastD_of_unique_max {α β : Type} [LinearOrder β] [Inhabited α]
    (key : α → β) (l : List α) (r : α) (hr : r ∈ l)
    (hmax : ∀ x ∈ l, x ≠ r → key x < key r) :
    (stableSortKey key l).getLastD default = r := by
  have hperm : List.Perm (stableSortKey key l) l := stableSortKey_perm key l
  have hsorted : ((l.enum).insertionSort (keyIdxLe key)).Pairwise (keyIdxLe key) :=
    List.sorted_insertionSort _ _
  have hne : stableSortKey key l ≠ [] := by
    intro h
    rw [h] at hperm
    have hl : l = [] := hperm.symm.eq_nil
    rw [hl] at hr
    cases hr
  obtain ⟨y, hy⟩ := Option.isSome_iff_exists.mp (List.getLast?_isSome.mpr hne)
  have hyD : (stableSortKey key l).getLastD default = y := by
    rw [List.getLastD_eq_getLast?, hy]
    rfl
  have hy_mem : y ∈ l := hperm.mem_iff.mp (List.mem_of_mem_getLast? hy)
  have hmap : (stableSortKey key l).getLast?
      = (((l.enum).insertionSort (keyIdxLe key)).getLast?).map Prod.snd := by
    unfold stableSortKey
    exact List.getLast?_map _ _
  obtain ⟨p, hp, hpy⟩ : ∃ p, ((l.enum).insertionSort (keyIdxLe key)).getLast? = some p
      ∧ p.2 = y := by
    rw [hmap] at hy
    exact Option.map_eq_some'.mp hy
  obtain ⟨q, hqS, hq2⟩ := List.mem_map.mp
    (show r ∈ ((l.enum).insertionSort (keyIdxLe key)).map Prod.snd from
      hperm.mem_iff.mpr hr)
  rcases pairwise_rel_getLast? hsorted hqS hp with heq | hrel
  · rw [hyD, ← hpy, ← heq, hq2]
  · by_cases hyr : y = r
    · rw [hyD, hyr]
    · exfalso
      have hlt : key y < key r := hmax y hy_mem hyr
      rcases hrel with h | ⟨h, _⟩
      · rw [hq2, hpy] at h
        exact absurd h (not_lt.mpr hlt.le)
      · rw [hq2, hpy] at h
        rw [h] at hlt
        exact lt_irrefl _ hlt

/-- C4: for a macro-series table with `date` and `series_id` columns, when a
series' maximum date is attained by a single row, `value_latest` for that
series is the `value` of that row (the group is sorted by date before taking
the latest, so table order is irrelevant), rounded to 4 decimal places. -/
theorem value_latest_is_max_date_value (name : String) (t : FredTable)
    (config : Config) (dt now : String) (r : FredRow) (hr : r ∈ t.rows)
    (hd : "date" ∈ t.cols) (hs : "series_id" ∈ t.cols)
    (hmax : ∀ r2 ∈ t.rows, r2.series_id = r.series_id → r2 ≠ r → r2.date < r.date) :
    (∃ p ∈ (prepare_fred_dataset name t config dt now).stats.by_series,
        p.1 = r.series_id)
      ∧ ∀ p ∈ (prepare_fred_dataset name t config dt now).stats.by_series,
          p.1 = r.series_id → p.2.value_latest = round4 r.value := by
  have hne : t.rows ≠ [] := fun h => by
    rw [h] at hr
    cases hr
  have hcond : ¬ (t.rows.length = 0 ∨ "date" ∉ stripInternal t.cols
      ∨ "series_id" ∉ stripInternal t.cols) := by
    push_neg
    exact ⟨by simpa [List.length_eq_zero] using hne,
      mem_stripInternal_of_mem (by decide) hd, mem_stripInternal_of_mem (by decide) hs⟩
  have hby : (prepare_fred_dataset name t config dt now).stats.by_series
      = (sortStrings ((t.rows.map (fun x => x.series_id)).dedup)).map
          (fun sid => (sid, seriesStatOf (stripInternal t.cols) t.rows sid)) := by
    simp only [prepare_fred_dataset, if_neg hcond]
  have hsid_mem : r.series_id ∈ sortStrings ((t.rows.map (fun x => x.series_id)).dedup) := by
    refine (List.perm_insertionSort _ _).mem_iff.mpr ?_
    exact List.mem_dedup.mpr (List.mem_map.mpr ⟨r, hr, rfl⟩)
  constructor
  · rw [hby]
    exact ⟨(r.series_id, seriesStatOf (stripInternal t.cols) t.rows r.series_id),
      List.mem_map.mpr ⟨r.series_id, hsid_mem, rfl⟩, rfl⟩
  · intro p hp hpsid
    rw [hby] at hp
    obtain ⟨sid, hsidmem2, heq⟩ := List.mem_map.mp hp
    subst heq
    simp only at hpsid
    subst hpsid
    have hrf : r ∈ t.rows.filter (fun x => x.series_id = r.series_id) :=
      List.mem_filter.mpr ⟨hr, by simp⟩
    have hmaxf : ∀ x ∈ t.rows.filter (fun x => x.series_id = r.series_id), x ≠ r →
        x.date < r.date := by
      intro x hx hxr
      have hx2 := List.mem_filter.mp hx
      exact hmax x hx2.1 (by simpa using hx2.2) hxr
    have hlast := stableSortKey_getLastD_of_unique_max (fun x : FredRow => x.date)
      (t.rows.filter (fun x => x.series_id = r.series_id)) r hrf hmaxf
    simp only [seriesStatOf, hlast]

/-- Witness for C4: one series, three rows with the maximum date in the
middle of the table. -/
theorem value_latest_is_max_date_value_witness :
    ((⟨5, "GDP", 21, "t", "u", "f"⟩ : FredRow)
        ∈ (⟨["date", "series_id", "value"],
            [⟨3, "GDP", 19, "t", "u", "f"⟩, ⟨5, "GDP", 21, "t", "u", "f"⟩,
             ⟨4, "GDP", 20, "t", "u", "f"⟩]⟩ : FredTable).rows
        ∧ "date" ∈ (["date", "series_id", "value"] : List String)
        ∧ "series_id" ∈ (["date", "series_id", "value"] : List String))
      ∧ ∀ p ∈ (prepare_fred_dataset "mx"
            ⟨["date", "series_id", "value"],
              [⟨3, "GDP", 19, "t", "u", "f"⟩, ⟨5, "GDP", 21, "t", "u", "f"⟩,
               ⟨4, "GDP", 20, "t", "u", "f"⟩]⟩ ⟨"d", []⟩ "fred" "t").stats.by_series,
          p.1 = "GDP" → p.2.value_latest = round4 21 := by
  refine ⟨⟨by simp, by simp, by simp⟩, ?_⟩
  exact (value_latest_is_max_date_value "mx"
    ⟨["date", "series_id", "value"],
      [⟨3, "GDP", 19, "t", "u", "f"⟩, ⟨5, "GDP", 21, "t", "u", "f"⟩,
       ⟨4, "GDP", 20, "t", "u", "f"⟩]⟩ ⟨"d", []⟩ "fred" "t"
    ⟨5, "GDP", 21, "t", "u", "f"⟩ (by simp) (by simp) (by simp)
    (by
      intro r2 h2 hsid hne2
      fin_cases h2 <;> simp_all)).2

/-- Coercion ignores rows it would drop: pre-filtering to the coercible rows
does not change the coerced list. -/
theorem coerceRows_filter (rows : List RssRow) :
    coerceRows (rows.filter (fun r => r.published.isSome)) = coerceRows rows := by
  unfold coerceRows
  induction rows with
  | nil => rfl
  | cons a tl ih =>
    cases h : a.published with
    | none => simpa [List.filter_cons, List.filterMap_cons, h] using ih
    | some v => simpa [List.filter_cons, List.filterMap_cons, h] using ih

/-- The number of coerced rows is the number of coercible rows. -/
theorem coerceRows_length (rows : List RssRow) :
    (coerceRows rows).length = (rows.filter (fun r => r.published.isSome)).length := by
  unfold coerceRows
  induction rows with
  | nil => rfl
  | cons a tl ih =>
    cases h : a.published <;> simp [List.filter_cons, List.filterMap_cons, h, ih]

/-- `list(df.columns) if len(df.columns) > 0 else []` is just the column
list. -/
theorem list_ite_length_pos {γ : Type} (L : List γ) :
    (if 0 < L.length then L else []) = L := by
  cases L <;> simp

/-- When every row was dropped by coercion, the main path produces exactly
the zero-row document. -/
theorem rssMainDoc_nil (name : String) (cols : List String) (config : Config)
    (now : String) :
    rssMainDoc name cols [] config now = rssEmptyDoc name cols config now := by
  unfold rssMainDoc rssEmptyDoc
  simp [sortStrings, List.insertionSort, list_ite_length_pos]

/-- C5: rows whose `published` value fails coercion are dropped before any
aggregation: with a `published` column present, normalizing a table gives
exactly the same document as normalizing the table restricted to its
coercible rows — so dropped rows appear in neither `data`, nor the
`articles_by_feed`/`articles_by_day` counts, nor the date range, nor the
reported `record_count`, which counts only the surviving rows. -/
theorem rss_drops_uncoercible (name : String) (t : RssTable) (config : Config)
    (now : String) (hp : "published" ∈ t.cols) :
    prepare_rss_dataset name t config now
        = prepare_rss_dataset name
            ⟨t.cols, t.rows.filter (fun r => r.published.isSome)⟩ config now
      ∧ ∀ doc, prepare_rss_dataset name t config now = .ok doc →
          doc.meta.record_count = (t.rows.filter (fun r => r.published.isSome)).length := by
  obtain ⟨cols, rows⟩ := t
  have hp2 : "published" ∈ stripInternal cols := mem_stripInternal_of_mem (by decide) hp
  constructor
  · by_cases h0 : rows = []
    · subst h0
      rfl
    · have h0n : ¬ rows.length = 0 := by simpa [List.length_eq_zero] using h0
      by_cases h1 : rows.filter (fun r => r.published.isSome) = []
      · have hdf : coerceRows rows = [] := by
          rw [← coerceRows_filter, h1]
          rfl
        simp only [prepare_rss_dataset, h0n, if_neg, if_pos, hp2, h1, hdf,
          List.length_nil, if_true, eq_self_iff_true, reduceIte, not_false_iff]
        rw [rssMainDoc_nil]
      · have h1n : ¬ (rows.filter (fun r => r.published.isSome)).length = 0 := by
          simpa [List.length_eq_zero] using h1
        simp only [prepare_rss_dataset, h0n, h1n, if_neg, hp2, if_pos,
          coerceRows_filter]
  · intro doc heq
    by_cases h0 : rows = []
    · subst h0
      simp only [prepare_rss_dataset] at heq
      simp only [List.length_nil, if_pos, reduceIte] at heq
      cases heq
      rfl
    · have h0n : ¬ rows.length = 0 := by simpa [List.length_eq_zero] using h0
      simp only [prepare_rss_dataset, h0n, if_neg, hp2, if_pos, reduceIte] at heq
      cases heq
      simpa [rssMainDoc] using coerceRows_length rows

/-- Witness for C5: one coercible and one uncoercible row. -/
theorem rss_drops_uncoercible_witness :
    ("published" ∈ (["published", "title"] : List String))
      ∧ prepare_rss_dataset "nw"
          ⟨["published", "title"],
            [⟨some 5, "a", "l", "f", "au"⟩, ⟨none, "b", "l2", "f", "au"⟩]⟩ ⟨"d", []⟩ "t"
        = prepare_rss_dataset "nw"
            ⟨["published", "title"],
              ([⟨some 5, "a", "l", "f", "au"⟩,
                ⟨none, "b", "l2", "f", "au"⟩] : List RssRow).filter
                (fun r => r.published.isSome)⟩ ⟨"d", []⟩ "t" :=
  ⟨by simp, (rss_drops_uncoercible "nw"
    ⟨["published", "title"],
      [⟨some 5, "a", "l", "f", "au"⟩, ⟨none, "b", "l2", "f", "au"⟩]⟩ ⟨"d", []⟩ "t"
    (by simp)).1⟩

/-! ### C8: the concrete price-table scenario -/

theorem isqrt_4e8 : isqrt 400000000 = 20000 := by
  norm_num [isqrt, List.range_succ]

theorem isqrt_266666666 : isqrt 266666666 = 16329 := by
  norm_num [isqrt, List.range_succ]

theorem sqrtRound4_one : sqrtRound4 1 = 1 := by
  unfold sqrtRound4
  have h1 : ⌊(4 * 10 ^ 8 * 1 : ℚ)⌋ = 400000000 := by norm_num
  rw [h1]
  have h2 : (400000000 : ℤ).toNat = 400000000 := rfl
  rw [h2, isqrt_4e8]
  norm_num

/-- `round(sqrt(2/3), 4) = 0.8165`: the population-convention stdev of
`[1, 2, 3]`. -/
theorem sqrtRound4_two_thirds : sqrtRound4 (2 / 3) = 1633 / 2000 := by
  unfold sqrtRound4
  have h1 : ⌊(4 * 10 ^ 8 * (2 / 3) : ℚ)⌋ = 266666666 := by norm_num
  rw [h1]
  have h2 : (266666666 : ℤ).toNat = 266666666 := rfl
  rw [h2, isqrt_266666666]
  norm_num

/-- The spec's scenario table: symbols `AAA` and `ZZZ`, 3 rows each, with
`close = [1, 2, 3]` and volumes `[10, 20, 30]` for `AAA`. -/
def c8Table : OhlcvTable :=
  ⟨["date", "symbol", "open", "high", "low", "close", "volume"],
   [⟨1, "AAA", 1, 1, 1, 1, 10⟩, ⟨2, "AAA", 2, 2, 2, 2, 20⟩, ⟨3, "AAA", 3, 3, 3, 3, 30⟩,
    ⟨1, "ZZZ", 5, 5, 5, 5, 7⟩, ⟨2, "ZZZ", 6, 6, 6, 6, 8⟩, ⟨3, "ZZZ", 7, 7, 7, 7, 9⟩]⟩

def c8Config : Config := ⟨"prices", []⟩

/-- Modelled from the spec's words, for comparison with the code: the
population (`ddof = 0`) standard deviation of a `close` column, rounded as
the code rounds. -/
def close_std_population (closes : List ℚ) : ℚ :=
  sqrtRound4
    ((closes.map (fun x => (x - closes.sum / (closes.length : ℚ)) ^ 2)).sum
      / (closes.length : ℚ))

/-- The scenario's `by_symbol` lookup reduces to the `AAA` group statistic. -/
theorem c8_lookup_eval :
    (prepare_ohlcv_dataset "px" c8Table c8Config "t").stats.by_symbol.lookup "AAA"
      = some (symbolStatOf c8Table.rows "AAA") := by
  have hcond : ¬ (c8Table.rows.length = 0 ∨ "date" ∉ stripInternal c8Table.cols
      ∨ "symbol" ∉ stripInternal c8Table.cols) := by decide
  simp only [prepare_ohlcv_dataset, if_neg hcond]
  have hsort : sortStrings ((c8Table.rows.map (fun r => r.symbol)).dedup)
      = ["AAA", "ZZZ"] := by
    show sortStrings ((["AAA", "AAA", "AAA", "ZZZ", "ZZZ", "ZZZ"]).dedup) = _
    simp [List.dedup_cons_of_mem, List.dedup_cons_of_not_mem, sortStrings,
      List.insertionSort, List.orderedInsert]
    decide
  rw [hsort]
  simp [List.lookup]

/-- The `AAA` group statistic evaluated: sample (`ddof = 1`) stdev is `1`. -/
theorem c8_stat_eval :
    symbolStatOf c8Table.rows "AAA"
      = ⟨3, fmtIso 1, fmtIso 3, 2, 1, 3, 1, 10 + 20 + 30⟩ := by
  unfold symbolStatOf c8Table
  simp only [List.filter_cons, List.map_cons, List.map_nil]
  simp
  norm_num [List.min?, List.max?, List.foldl, min_def, max_def,
    round4, pyRound, sqrtRound4_one, SymbolStat.mk.injEq]

/-- C8 counterexample: the emitted `close_std` for `AAA` is `1.0`, but the
population-convention stdev of `close = [1, 2, 3]` is `0.8165 ≠ 1.0`: the
emitted value is not the population-formula value the claim describes (it is
pandas' sample stdev, `ddof = 1`). -/
theorem c8_population_label_refuted :
    (((prepare_ohlcv_dataset "px" c8Table c8Config "t").stats.by_symbol.lookup
        "AAA").map (fun st => st.close_std)) = some 1
      ∧ close_std_population [1, 2, 3] ≠ 1 := by
  constructor
  · rw [c8_lookup_eval, c8_stat_eval]
    rfl
  · have h : close_std_population [1, 2, 3] = 1633 / 2000 := by
      unfold close_std_population
      norm_num [sqrtRound4_two_thirds]
    rw [h]
    norm_num

/-- C8 (amended): for the scenario table, `by_symbol.AAA` is exactly
`{count: 3, close_mean: 2.0, close_min: 1, close_max: 3, close_std: 1.0}`
under the sample (`ddof = 1`) stdev convention that pandas `Series.std()`
uses, and `volume_total` is the sum `10 + 20 + 30` of the three `AAA`
volumes. -/
theorem by_symbol_scenario_sample_stdev :
    (prepare_ohlcv_dataset "px" c8Table c8Config "t").stats.by_symbol.lookup "AAA"
      = some ⟨3, fmtIso 1, fmtIso 3, 2, 1, 3, 1, 10 + 20 + 30⟩ := by
  rw [c8_lookup_eval, c8_stat_eval]
